import Mathlib

/-!
# Verification of the multi-cluster cache facade

Shallow embedding of `pkg/cache/clusterscoped_cache.go`: the
`multiClusterCache` facade that routes `Get`, `List`, `GetInformer` and
`IndexField` calls to per-cluster delegate caches, creating per-cluster
caches lazily on `Get`.

Modelling conventions:
* Go `error` values are `String`s (Go errors here are `fmt.Errorf` values);
  `Except String α` models a fallible call, and delegate errors are
  propagated as the same string.
* The delegate caches (`Cache` instances produced by `New`) are external
  collaborators; their behaviour is an environment `Env` of oracles keyed
  by a numeric cache id. The facade state `MCC` records the registry map
  `clusterToCache` (an association list from cluster name to cache id),
  the per-cache local state (`CacheSt`, tracking the config host used at
  construction and the set of installed index fields), the id of the
  global (wildcard) cache, and which caches have had their background
  `Start` task launched.
* Go's in-place mutation of the `client.Object` argument
  (`obj.SetClusterName`) is modelled by returning the updated object.
* A nil `client.Object` interface value makes `obj.GetClusterName()`
  panic; wrappers taking `Option Obj` return `none` for a panic.
-/

namespace ClusterScopedCache

/-- A `client.Object`: only the cluster-name metadata field and an opaque
payload for the rest of the object are relevant to the facade. -/
structure Obj where
  clusterName : String
  payload : String
deriving DecidableEq, Repr

/-- A `context.Context`: only the `"clusterName"` value matters.
`ctx.Value("clusterName").(string)` yields the string when present and
`""` (with `ok = false`) otherwise. -/
structure Ctx where
  clusterName : Option String
deriving DecidableEq, Repr

/-- `ctx.Value("clusterName").(string)` with the failed-assertion default. -/
def Ctx.valueClusterName (ctx : Ctx) : String :=
  ctx.clusterName.getD ""

/-- A `client.ObjectKey` (opaque to the facade). -/
abbrev Key := String

/-- An `Informer` handle returned by a delegate cache (opaque token). -/
abbrev InformerTok := Nat

/-- The result of a delegate `List` (opaque to the facade). -/
abbrev ListRes := String

/-- A `client.ListOption`: either an option that sets
`ListOptions.ClusterName` when applied, or any other option. -/
inductive ListOpt where
  | inCluster (cn : String)
  | other
deriving DecidableEq, Repr

/-- `client.ListOptions`: only the `ClusterName` field matters here.
The Go zero value has `ClusterName == ""`. -/
structure ListOptions where
  clusterName : String
deriving DecidableEq, Repr

/-- Applying one `client.ListOption` to a `ListOptions`. -/
def ListOptions.applyOpt (lo : ListOptions) : ListOpt → ListOptions
  | .inCluster cn => { lo with clusterName := cn }
  | .other => lo

/-- `listOpts.ApplyOptions(opts)`. -/
def ListOptions.applyOptions (lo : ListOptions) (opts : List ListOpt) : ListOptions :=
  opts.foldl ListOptions.applyOpt lo

/-- Local state of one delegate cache instance: the host string of the
`rest.Config` it was built from, the `Options.ClusterName` it was built
with, and the index fields installed on it so far. -/
structure CacheSt where
  host : String
  ctorClusterName : String
  indexFields : List String
deriving DecidableEq, Repr

/-- `const globalClusterCache = "_cluster"`. -/
def globalClusterCache : String := "_cluster"

/-- Behaviour of the external collaborators, keyed by cache id:
`New` construction failures and the delegate caches'
`Get` / `GetInformer` / `IndexField` / `WaitForCacheSync` / `Start` /
`List` results. `dGet` returns the object as filled in by the delegate on
success; on a delegate error the caller-visible object is unchanged by
the delegate. `dIndexErr`/`dStartErr` return `some e` when the delegate
call fails with error `e`. -/
structure Env where
  newErr : String → Option String
  dGet : Nat → Key → Obj → Except String Obj
  dGetInformer : Nat → Obj → Except String InformerTok
  dIndexErr : Nat → Obj → String → Option String
  dWait : Nat → Bool
  dStartErr : Nat → Option String
  dList : Nat → List ListOpt → Except String ListRes

/-- State of a `multiClusterCache` value: `clusterToCache` is the
registry map (association list, first binding wins), `caches` holds the
local state of every cache instance ever constructed (by id), `gCache`
is the id of the eagerly-constructed wildcard cache, `cfgHost` is
`c.cfg.Host`, `optsClusterName` is the mutable `c.opts.ClusterName`
field, `nextId` is the id the next constructed cache will get, and
`started` lists the caches whose background `Start` task has been
launched. -/
structure MCC where
  clusterToCache : List (String × Nat)
  caches : List (Nat × CacheSt)
  gCache : Nat
  cfgHost : String
  optsClusterName : String
  nextId : Nat
  started : List Nat
deriving DecidableEq, Repr

/-- Association-list lookup (a Go map read). -/
def lookupRegL (cn : String) : List (String × Nat) → Option Nat
  | [] => none
  | p :: rest => if p.1 = cn then some p.2 else lookupRegL cn rest

/-- Registry lookup `c.clusterToCache[clusterName]`. -/
def MCC.lookupReg (st : MCC) (cn : String) : Option Nat :=
  lookupRegL cn st.clusterToCache

/-- Look up a cache instance by id in a cache-state list. -/
def cacheOfL (cid : Nat) : List (Nat × CacheSt) → Option CacheSt
  | [] => none
  | p :: rest => if p.1 = cid then some p.2 else cacheOfL cid rest

/-- Look up a cache instance's local state by id. -/
def MCC.cacheOf (st : MCC) (cid : Nat) : Option CacheSt :=
  cacheOfL cid st.caches

/-- Append index `field` to the entry for cache `cid`. -/
def addFieldL (cid : Nat) (field : String) : List (Nat × CacheSt) → List (Nat × CacheSt)
  | [] => []
  | p :: rest =>
    (if p.1 = cid then (p.1, { p.2 with indexFields := p.2.indexFields ++ [field] }) else p) ::
      addFieldL cid field rest

/-- Install index `field` on the cache with id `cid` (the effect of a
successful delegate `IndexField` call on that cache's local state). -/
def MCC.addField (st : MCC) (cid : Nat) (field : String) : MCC :=
  { st with caches := addFieldL cid field st.caches }

/-- `getClusterName(ctx, obj)` (lines 115–126): the object's metadata
cluster name; if empty, the context value `"clusterName"`; if still
empty, `"*"`. -/
def getClusterName (ctx : Ctx) (obj : Obj) : String :=
  let clusterName := obj.clusterName
  let clusterName := if clusterName = "" then ctx.valueClusterName else clusterName
  if clusterName = "" then "*" else clusterName

/-- `getClusterName` on a possibly-nil object: a nil `client.Object`
interface makes `obj.GetClusterName()` panic (`none`). -/
def getClusterNameN (ctx : Ctx) : Option Obj → Option String
  | none => none
  | some obj => some (getClusterName ctx obj)

/-- The error message of
`fmt.Errorf("unable to get cache because clusterName %v is not known", clusterName)`
(line 247): the unknown-partition error. -/
def unknownClusterMsg (cn : String) : String :=
  "unable to get cache because clusterName " ++ cn ++ " is not known"

/-- `multiClusterCache.Get` (lines 187–218). Resolve the cluster name;
wildcard delegates to the global cache; otherwise set the cluster name on
the object, look the cluster up in the registry, lazily construct, insert
and start a new cache when absent, and delegate `Get` to it. Returns the
updated facade state, the caller-visible object after the call, and the
call's result. -/
def MCC.get (env : Env) (st : MCC) (ctx : Ctx) (key : Key) (obj : Obj) :
    MCC × Obj × Except String Unit :=
  let clusterName := getClusterName ctx obj
  if clusterName = "*" then
    match env.dGet st.gCache key obj with
    | .ok o => (st, o, .ok ())
    | .error e => (st, obj, .error e)
  else
    let obj := { obj with clusterName := clusterName }
    match st.lookupReg clusterName with
    | some cid =>
      match env.dGet cid key obj with
      | .ok o => (st, o, .ok ())
      | .error e => (st, obj, .error e)
    | none =>
      let st := { st with optsClusterName := clusterName }
      match env.newErr clusterName with
      | some e => (st, obj, .error e)
      | none =>
        let cid := st.nextId
        let cst : CacheSt :=
          { host := st.cfgHost ++ "/clusters/" ++ clusterName
            ctorClusterName := clusterName
            indexFields := [] }
        let st :=
          { st with
            caches := st.caches ++ [(cid, cst)]
            clusterToCache := st.clusterToCache ++ [(clusterName, cid)]
            nextId := cid + 1
            started := st.started ++ [cid] }
        match env.dGet cid key obj with
        | .ok o => (st, o, .ok ())
        | .error e => (st, obj, .error e)

/-- `multiClusterCache.Get` on a possibly-nil object: a nil object makes
`getClusterName` panic before anything else happens (`none`). -/
def MCC.getN (env : Env) (st : MCC) (ctx : Ctx) (key : Key) :
    Option Obj → Option (MCC × Obj × Except String Unit)
  | none => none
  | some obj => some (MCC.get env st ctx key obj)

/-- The loop of `multiClusterCache.GetInformer` (lines 103–109): collect
an informer from every registered cache in turn, returning the first
delegate error. -/
def infLoop (env : Env) (obj : Obj) :
    List (String × Nat) → List (String × InformerTok) →
    Except String (List (String × InformerTok))
  | [], acc => .ok acc
  | (cs, cid) :: rest, acc =>
    match env.dGetInformer cid obj with
    | .error e => .error e
    | .ok i => infLoop env obj rest (acc ++ [(cs, i)])

/-- `multiClusterCache.GetInformer` (lines 88–113). Resolve the cluster
name; when wildcard, first collect the global cache's informer under key
`"_cluster"` (with the object as supplied); then set the cluster name on
the object and collect an informer from every registered per-cluster
cache; return the aggregate informer map together with the
caller-visible object. The facade state is not modified. -/
def MCC.getInformer (env : Env) (st : MCC) (ctx : Ctx) (obj : Obj) :
    Except String (Obj × List (String × InformerTok)) :=
  let clusterName := getClusterName ctx obj
  let init : Except String (List (String × InformerTok)) :=
    if clusterName = "*" then
      match env.dGetInformer st.gCache obj with
      | .error e => .error e
      | .ok gi => .ok [(globalClusterCache, gi)]
    else .ok []
  match init with
  | .error e => .error e
  | .ok acc =>
    let obj := { obj with clusterName := clusterName }
    match infLoop env obj st.clusterToCache acc with
    | .error e => .error e
    | .ok infs => .ok (obj, infs)

/-- `multiClusterCache.GetInformer` on a possibly-nil object. -/
def MCC.getInformerN (env : Env) (st : MCC) (ctx : Ctx) :
    Option Obj → Option (Except String (Obj × List (String × InformerTok)))
  | none => none
  | some obj => some (MCC.getInformer env st ctx obj)

/-- The loop of `multiClusterCache.IndexField` (lines 179–183): install
the field on every registered cache in turn, returning on the first
delegate error (caches visited before the failure keep the field). -/
def idxLoop (env : Env) (obj : Obj) (field : String) :
    List (String × Nat) → MCC → MCC × Except String Unit
  | [], st => (st, .ok ())
  | (_, cid) :: rest, st =>
    match env.dIndexErr cid obj field with
    | some e => (st, .error e)
    | none => idxLoop env obj field rest (st.addField cid field)

/-- `multiClusterCache.IndexField` (lines 170–185). Wildcard installs the
index on the global cache only; otherwise set the cluster name on the
object and install the index on every registered per-cluster cache. -/
def MCC.indexField (env : Env) (st : MCC) (ctx : Ctx) (obj : Obj) (field : String) :
    MCC × Obj × Except String Unit :=
  let clusterName := getClusterName ctx obj
  if clusterName = "*" then
    match env.dIndexErr st.gCache obj field with
    | some e => (st, obj, .error e)
    | none => (st.addField st.gCache field, obj, .ok ())
  else
    let obj := { obj with clusterName := clusterName }
    let (st, r) := idxLoop env obj field st.clusterToCache st
    (st, obj, r)

/-- `multiClusterCache.IndexField` on a possibly-nil object. -/
def MCC.indexFieldN (env : Env) (st : MCC) (ctx : Ctx) (field : String) :
    Option Obj → Option (MCC × Obj × Except String Unit)
  | none => none
  | some obj => some (MCC.indexField env st ctx obj field)

/-- The loop of `multiClusterCache.WaitForCacheSync` (lines 157–161):
`synced` is cleared whenever a registered cache reports unsynced; every
cache is queried (no short-circuit). -/
def waitLoop (env : Env) : List (String × Nat) → Bool → Bool
  | [], synced => synced
  | (_, cid) :: rest, synced =>
    waitLoop env rest (if env.dWait cid then synced else false)

/-- `multiClusterCache.WaitForCacheSync` (lines 155–168). -/
def MCC.waitForCacheSync (env : Env) (st : MCC) : Bool :=
  let synced := waitLoop env st.clusterToCache true
  let synced := if env.dWait st.gCache then synced else false
  synced

/-- `multiClusterCache.List` (lines 225–250). Note the source reads
`listOpts.ClusterName` from the zero-value `ListOptions` *before*
`listOpts.ApplyOptions(opts)` runs, and discards the `fmt.Errorf` value
built for an empty cluster name. List never modifies the facade state. -/
def MCC.list (env : Env) (st : MCC) (ctx : Ctx) (opts : List ListOpt) :
    Except String ListRes :=
  let listOpts : ListOptions := { clusterName := "" }
  let clusterName := listOpts.clusterName
  let clusterName := if clusterName = "" then ctx.valueClusterName else clusterName
  -- for clusterName == "" the source builds an error with fmt.Errorf but
  -- discards it and keeps going
  let _applied := listOpts.applyOptions opts
  if clusterName = "*" then
    env.dList st.gCache opts
  else
    match st.lookupReg clusterName with
    | some cid => env.dList cid opts
    | none => .error (unknownClusterMsg clusterName)

/-- Events observable from `multiClusterCache.Start` and the goroutines
it spawns: launching a delegate cache's `Start`, logging a delegate
failure, blocking on `<-ctx.Done()`, and returning. -/
inductive Ev where
  | launch (cid : Nat)
  | logErr (e : String)
  | awaitCancel
  | ret
deriving DecidableEq, Repr

/-- The body of each goroutine spawned by `Start` (and by `Get`'s lazy
creation): run the delegate's `Start` and log its error, if any; the
goroutine never returns a value to the facade. -/
def startTask (env : Env) (cid : Nat) : List Ev :=
  match env.dStartErr cid with
  | some e => [Ev.logErr e]
  | none => []

/-- `multiClusterCache.Start` (lines 132–153), as the main goroutine's
event trace paired with the returned error value: launch the global
cache's task, launch one task per registered cache, block on
`<-ctx.Done()`, then `return nil`. -/
def MCC.start (env : Env) (st : MCC) : List Ev × Except String Unit :=
  let _ := env
  (Ev.launch st.gCache ::
      (st.clusterToCache.map fun p => Ev.launch p.2) ++
      [Ev.awaitCancel, Ev.ret],
    Except.ok ())

/-! ## Concrete fixtures used by witnesses and counterexamples -/

/-- A concrete delegate environment: construction never fails, `Get`
reports key `"foo"` as absent and fills the object otherwise, each
cache's informer token is the cache id, `IndexField` always succeeds,
every cache reports synced, cache 1's background `Start` fails, and
`List` returns a marker naming the serving cache. -/
def env0 : Env where
  newErr := fun _ => none
  dGet := fun _ key obj =>
    if key = "foo" then Except.error "object not found"
    else Except.ok { obj with payload := "stored" }
  dGetInformer := fun cid _ => Except.ok cid
  dIndexErr := fun _ _ _ => none
  dWait := fun _ => true
  dStartErr := fun cid => if cid = 1 then some "failed to start" else none
  dList := fun cid _ => if cid = 0 then Except.ok "list-global" else Except.ok "list-scoped"

/-- The wildcard cache's local state in the fixtures. -/
def gSt : CacheSt := { host := "https://h/clusters/*", ctorClusterName := "", indexFields := [] }

/-- Cluster `"a"`'s cache state in the fixtures. -/
def aSt : CacheSt := { host := "https://h/clusters/a", ctorClusterName := "a", indexFields := [] }

/-- Cluster `"b"`'s cache state in the fixtures. -/
def bSt : CacheSt := { host := "https://h/clusters/b", ctorClusterName := "b", indexFields := [] }

/-- A fresh facade: wildcard cache 0 only, no clusters registered. -/
def st0 : MCC :=
  { clusterToCache := [], caches := [(0, gSt)], gCache := 0, cfgHost := "https://h",
    optsClusterName := "", nextId := 1, started := [0] }

/-- A facade with clusters `"a"` (cache 1) and `"b"` (cache 2) registered. -/
def st2 : MCC :=
  { clusterToCache := [("a", 1), ("b", 2)], caches := [(0, gSt), (1, aSt), (2, bSt)],
    gCache := 0, cfgHost := "https://h", optsClusterName := "", nextId := 3,
    started := [0, 1, 2] }

/-- A context with no ambient cluster name. -/
def ctxN : Ctx := { clusterName := none }

/-- A context whose ambient cluster name is the wildcard. -/
def ctxStar : Ctx := { clusterName := some "*" }

/-- A context whose ambient cluster name is `"a"`. -/
def ctxA : Ctx := { clusterName := some "a" }

/-- An object whose metadata carries cluster `"a"`. -/
def objA : Obj := { clusterName := "a", payload := "p" }

/-- An object carrying no cluster name. -/
def objE : Obj := { clusterName := "", payload := "p" }

/-! ## Helper lemmas -/

/-- Writing an object's own cluster name back into it is the identity. -/
theorem Obj.set_self (o : Obj) : ({ o with clusterName := o.clusterName } : Obj) = o := rfl

/-- An object with a nonempty cluster name resolves to that name. -/
theorem getClusterName_of_obj (ctx : Ctx) (obj : Obj) (h : obj.clusterName ≠ "") :
    getClusterName ctx obj = obj.clusterName := by
  simp [getClusterName, h]

/-- The resolver never returns the empty string. -/
theorem getClusterName_ne_empty (ctx : Ctx) (obj : Obj) : getClusterName ctx obj ≠ "" := by
  unfold getClusterName
  by_cases h : (if obj.clusterName = "" then ctx.valueClusterName else obj.clusterName) = "" <;>
    simp [h]

/-- `infLoop` when every delegate `GetInformer` succeeds. -/
theorem infLoop_ok (env : Env) (obj : Obj) (inf : Nat → Obj → InformerTok)
    (henv : ∀ cid o, env.dGetInformer cid o = Except.ok (inf cid o))
    (l : List (String × Nat)) (acc : List (String × InformerTok)) :
    infLoop env obj l acc = Except.ok (acc ++ l.map fun p => (p.1, inf p.2 obj)) := by
  induction l generalizing acc with
  | nil => simp [infLoop]
  | cons p rest ih => cases p with
    | mk cs cid => simp [infLoop, henv, ih]

/-- `idxLoop` when every delegate `IndexField` succeeds: the field is
installed on every listed cache, in order. -/
theorem idxLoop_ok (env : Env) (obj : Obj) (field : String)
    (henv : ∀ cid o f, env.dIndexErr cid o f = none)
    (l : List (String × Nat)) (st : MCC) :
    idxLoop env obj field l st =
      (l.foldl (fun s p => s.addField p.2 field) st, Except.ok ()) := by
  induction l generalizing st with
  | nil => simp [idxLoop]
  | cons p rest ih => cases p with
    | mk cs cid => simp [idxLoop, henv, ih]

/-- `addFieldL` touches exactly the entries of the target id. -/
theorem cacheOfL_addFieldL (cid cn : Nat) (field : String) (l : List (Nat × CacheSt)) :
    cacheOfL cn (addFieldL cid field l) =
      if cn = cid then
        (cacheOfL cn l).map fun c => { c with indexFields := c.indexFields ++ [field] }
      else cacheOfL cn l := by
  induction l with
  | nil => simp [addFieldL, cacheOfL]
  | cons p rest ih =>
    by_cases h1 : p.1 = cid
    · by_cases h2 : p.1 = cn
      · have hcc : cn = cid := h2 ▸ h1
        simp [addFieldL, cacheOfL, h1, h2, hcc]
      · have hcc : cn ≠ cid := fun hEq => h2 (by rw [h1, hEq])
        have hcc2 : cid ≠ cn := fun hEq => hcc hEq.symm
        simp [addFieldL, cacheOfL, h1, h2, hcc, hcc2, ih]
    · by_cases h2 : p.1 = cn
      · have hcc : cn ≠ cid := fun hEq => h1 (by rw [h2, hEq])
        simp [addFieldL, cacheOfL, h1, h2, hcc]
      · simp [addFieldL, cacheOfL, h1, h2, ih]

/-- `MCC.addField` leaves every other cache's state unchanged and updates
the target's. -/
theorem cacheOf_addField (st : MCC) (cid cn : Nat) (field : String) :
    (st.addField cid field).cacheOf cn =
      if cn = cid then
        (st.cacheOf cn).map fun c => { c with indexFields := c.indexFields ++ [field] }
      else st.cacheOf cn := by
  simp [MCC.addField, MCC.cacheOf, cacheOfL_addFieldL]

/-- `MCC.addField` only touches the `caches` component. -/
theorem addField_frame_components (st : MCC) (cid : Nat) (field : String) :
    (st.addField cid field).clusterToCache = st.clusterToCache ∧
    (st.addField cid field).gCache = st.gCache ∧
    (st.addField cid field).nextId = st.nextId ∧
    (st.addField cid field).cfgHost = st.cfgHost := ⟨rfl, rfl, rfl, rfl⟩

/-- Folding `addField` over a list preserves every component but `caches`. -/
theorem foldl_addField_components (field : String) (l : List (String × Nat)) (st : MCC) :
    (l.foldl (fun s p => s.addField p.2 field) st).clusterToCache = st.clusterToCache ∧
    (l.foldl (fun s p => s.addField p.2 field) st).gCache = st.gCache ∧
    (l.foldl (fun s p => s.addField p.2 field) st).nextId = st.nextId ∧
    (l.foldl (fun s p => s.addField p.2 field) st).cfgHost = st.cfgHost := by
  induction l generalizing st with
  | nil => exact ⟨rfl, rfl, rfl, rfl⟩
  | cons p rest ih => simpa [MCC.addField] using ih (st.addField p.2 field)

/-- A cache whose id is in none of the visited registry entries is left
unchanged by the `IndexField` fold. -/
theorem cacheOf_foldl_addField_notmem (field : String) (l : List (String × Nat)) (st : MCC)
    (cid : Nat) (h : cid ∉ l.map Prod.snd) :
    (l.foldl (fun s p => s.addField p.2 field) st).cacheOf cid = st.cacheOf cid := by
  induction l generalizing st with
  | nil => rfl
  | cons p rest ih =>
    simp only [List.map_cons, List.mem_cons, not_or] at h
    rw [List.foldl_cons, ih _ h.2, cacheOf_addField, if_neg h.1]

/-- A cache visited exactly once by the `IndexField` fold gets the field
appended exactly once. -/
theorem cacheOf_foldl_addField_mem (field : String) (l : List (String × Nat)) (st : MCC)
    (cid : Nat) (hnd : (l.map Prod.snd).Nodup) (h : cid ∈ l.map Prod.snd) :
    (l.foldl (fun s p => s.addField p.2 field) st).cacheOf cid =
      (st.cacheOf cid).map fun c => { c with indexFields := c.indexFields ++ [field] } := by
  induction l generalizing st with
  | nil => simp at h
  | cons p rest ih =>
    simp only [List.map_cons, List.nodup_cons] at hnd
    simp only [List.map_cons, List.mem_cons] at h
    rcases h with h | h
    · subst h
      rw [List.foldl_cons, cacheOf_foldl_addField_notmem field rest _ _ hnd.1,
        cacheOf_addField, if_pos rfl]
    · have hne : cid ≠ p.2 := fun hEq => hnd.1 (hEq ▸ h)
      rw [List.foldl_cons, ih _ hnd.2 h, cacheOf_addField, if_neg hne]

/-- A missing id stays missing through the `IndexField` fold. -/
theorem cacheOf_foldl_addField_none (field : String) (l : List (String × Nat)) (st : MCC)
    (cid : Nat) (h : st.cacheOf cid = none) :
    (l.foldl (fun s p => s.addField p.2 field) st).cacheOf cid = none := by
  induction l generalizing st with
  | nil => exact h
  | cons p rest ih =>
    refine List.foldl_cons _ _ ▸ ih _ ?_
    rw [cacheOf_addField]
    by_cases hp : cid = p.2
    · subst hp
      simp [h]
    · simp [hp, h]

/-- Appending a fresh entry makes it visible to `cacheOfL`. -/
theorem cacheOfL_append_fresh (cid : Nat) (c : CacheSt) (l : List (Nat × CacheSt))
    (h : cacheOfL cid l = none) : cacheOfL cid (l ++ [(cid, c)]) = some c := by
  induction l with
  | nil => simp [cacheOfL]
  | cons p rest ih =>
    by_cases hp : p.1 = cid
    · simp [cacheOfL, hp] at h
    · have h2 : cacheOfL cid rest = none := by
        simpa [cacheOfL, hp] using h
      simp [cacheOfL, hp, ih h2]

/-- The registry-miss path of `Get`: the facade state after lazily
constructing, inserting and starting the new cache. -/
theorem get_create (env : Env) (st : MCC) (ctx : Ctx) (key : Key) (obj : Obj)
    (hconc : getClusterName ctx obj ≠ "*")
    (hmiss : st.lookupReg (getClusterName ctx obj) = none)
    (hnew : env.newErr (getClusterName ctx obj) = none) :
    (MCC.get env st ctx key obj).1 =
      { st with
        clusterToCache := st.clusterToCache ++ [(getClusterName ctx obj, st.nextId)]
        caches := st.caches ++
          [(st.nextId,
            { host := st.cfgHost ++ "/clusters/" ++ getClusterName ctx obj
              ctorClusterName := getClusterName ctx obj
              indexFields := [] })]
        optsClusterName := getClusterName ctx obj
        nextId := st.nextId + 1
        started := st.started ++ [st.nextId] } := by
  unfold MCC.get
  rw [if_neg hconc]
  simp only [MCC.lookupReg] at hmiss
  simp only [MCC.lookupReg, hmiss, hnew]
  cases env.dGet st.nextId key { obj with clusterName := getClusterName ctx obj } <;> rfl

/-! ## Claim theorems -/

/-- C1: a `Get` on a fresh facade whose object metadata carries a
concrete cluster name not in the registry creates exactly one new
per-cluster cache (scoped to `<host>/clusters/<name>`), inserts it into
the registry, launches its background synchronization task, and returns
exactly the delegated `Get` result — a delegate error (such as
not-found) is propagated unmodified, with the object it delegated to
the new cache. -/
theorem get_fresh_lazy_create (env : Env) (st : MCC) (ctx : Ctx) (key : Key) (obj : Obj)
    (hfresh : st.clusterToCache = [])
    (hcn : obj.clusterName ≠ "") (hnw : obj.clusterName ≠ "*")
    (hnew : env.newErr obj.clusterName = none) :
    MCC.get env st ctx key obj =
      ({ st with
          clusterToCache := [(obj.clusterName, st.nextId)]
          caches := st.caches ++
            [(st.nextId,
              { host := st.cfgHost ++ "/clusters/" ++ obj.clusterName
                ctorClusterName := obj.clusterName
                indexFields := [] })]
          optsClusterName := obj.clusterName
          nextId := st.nextId + 1
          started := st.started ++ [st.nextId] },
        match env.dGet st.nextId key obj with
        | .ok o => (o, Except.ok ())
        | .error e => (obj, Except.error e)) := by
  have hres : getClusterName ctx obj = obj.clusterName := getClusterName_of_obj ctx obj hcn
  simp only [MCC.get, hres, if_neg hnw, MCC.lookupReg, hfresh, lookupRegL, hnew, Obj.set_self]
  cases hd : env.dGet st.nextId key obj <;> simp [hfresh, hd]

/-- Witness for C1 at the scenario of the spec: fresh facade, object in
cluster `"a"`, key `"foo"` absent from the delegate store. -/
theorem get_fresh_lazy_create_witness :
    MCC.get env0 st0 ctxN "foo" objA =
      ({ clusterToCache := [("a", 1)]
         caches := [(0, gSt),
           (1, { host := "https://h/clusters/a", ctorClusterName := "a", indexFields := [] })]
         gCache := 0
         cfgHost := "https://h"
         optsClusterName := "a"
         nextId := 2
         started := [0, 1] },
       (objA, Except.error "object not found")) :=
  get_fresh_lazy_create env0 st0 ctxN "foo" objA rfl (by decide) (by decide) rfl

/-- C5: cluster-name resolution precedence — explicit object metadata
first, then the ambient context value, then the wildcard `"*"`. The
resolver is embedded as a pure function (the Go function performs no
writes), so it leaves the object unchanged by construction. -/
theorem getClusterName_precedence (ctx : Ctx) (obj : Obj) :
    (obj.clusterName ≠ "" → getClusterName ctx obj = obj.clusterName) ∧
    (obj.clusterName = "" → ctx.valueClusterName ≠ "" →
      getClusterName ctx obj = ctx.valueClusterName) ∧
    (obj.clusterName = "" → ctx.valueClusterName = "" →
      getClusterName ctx obj = "*") := by
  refine ⟨fun h => getClusterName_of_obj ctx obj h, fun h1 h2 => ?_, fun h1 h2 => ?_⟩
  · simp [getClusterName, h1, h2]
  · simp [getClusterName, h1, h2]

/-- Witness for C5: each precedence case at a concrete input. -/
theorem getClusterName_precedence_witness :
    getClusterName ctxA objA = "a" ∧
    getClusterName ctxA objE = "a" ∧
    getClusterName ctxN objE = "*" :=
  ⟨(getClusterName_precedence ctxA objA).1 (by decide),
   (getClusterName_precedence ctxA objE).2.1 (by decide) (by decide),
   (getClusterName_precedence ctxN objE).2.2 (by decide) (by decide)⟩

/-- C6: `WaitForCacheSync` returns `true` exactly when the wildcard
cache and every currently-registered per-cluster cache report synced;
one unsynced cache makes it `false`. -/
theorem waitForCacheSync_iff_all (env : Env) (st : MCC) :
    MCC.waitForCacheSync env st = true ↔
      (env.dWait st.gCache = true ∧ ∀ p ∈ st.clusterToCache, env.dWait p.2 = true) := by
  have hloop : ∀ (l : List (String × Nat)) (b : Bool),
      waitLoop env l b = (b && l.all fun p => env.dWait p.2) := by
    intro l
    induction l with
    | nil => intro b; simp [waitLoop]
    | cons p rest ih =>
      intro b
      simp only [waitLoop, ih]
      cases hw : env.dWait p.2 <;> simp [hw]
  unfold MCC.waitForCacheSync
  rw [hloop]
  cases hg : env.dWait st.gCache <;> simp [List.all_eq_true]

/-- Witness for C6 at a facade where every cache reports synced. -/
theorem waitForCacheSync_witness : MCC.waitForCacheSync env0 st2 = true :=
  (waitForCacheSync_iff_all env0 st2).mpr ⟨rfl, by decide⟩

/-- C9: `Start` launches the wildcard cache's task and one task per
registered cache, blocks on cancellation (`awaitCancel` immediately
precedes the single `ret` at the end of the main trace), and returns
`nil` regardless of the delegate environment: a failing delegate `Start`
is only logged inside its own task, which never emits a return or
touches the cancellation wait. -/
theorem start_launches_all_blocks_returns_nil (env env2 : Env) (st : MCC) :
    (MCC.start env st).2 = Except.ok () ∧
    (MCC.start env st).1 =
      Ev.launch st.gCache :: (st.clusterToCache.map fun p => Ev.launch p.2) ++
        [Ev.awaitCancel, Ev.ret] ∧
    MCC.start env st = MCC.start env2 st ∧
    ∀ cid, Ev.ret ∉ startTask env cid ∧ Ev.awaitCancel ∉ startTask env cid := by
  refine ⟨rfl, rfl, rfl, fun cid => ?_⟩
  unfold startTask
  cases env.dStartErr cid <;> simp

/-- Witness for C9: on the two-cluster facade, cache 1's `Start` fails
in the fixture environment, yet the facade's `Start` still returns `nil`
and the failing task only logs. -/
theorem start_launches_witness :
    (MCC.start env0 st2).2 = Except.ok () ∧
    env0.dStartErr 1 = some "failed to start" ∧
    Ev.ret ∉ startTask env0 1 :=
  ⟨(start_launches_all_blocks_returns_nil env0 env0 st2).1, rfl,
   ((start_launches_all_blocks_returns_nil env0 env0 st2).2.2.2 1).1⟩

/-- C3 counterexample: with clusters `"a"` (cache 1) and `"b"` (cache 2)
registered and an object whose metadata names the concrete cluster
`"a"`, the aggregate returned by `GetInformer` contains the informer
obtained from `"b"`'s cache — not only `"a"`'s — refuting the claim
that the facade delegates to that single cluster's informer only. -/
theorem getInformer_concrete_includes_other_cluster :
    (MCC.getInformer env0 st2 ctxN objA).toOption.map (fun r => r.2.contains ("b", 2)) =
      some true := rfl

/-- C3 as amended: for an object resolving to a concrete cluster name,
`GetInformer` skips the wildcard cache, writes the resolved name into
the object, and collects one informer from **every** currently-registered
per-cluster cache (in registry order), not only the named one; no cache
is lazily created (the facade state is not even threaded through). -/
theorem getInformer_concrete_fans_out (env : Env) (st : MCC) (ctx : Ctx) (obj : Obj)
    (inf : Nat → Obj → InformerTok)
    (hconc : getClusterName ctx obj ≠ "*")
    (henv : ∀ cid o, env.dGetInformer cid o = Except.ok (inf cid o)) :
    MCC.getInformer env st ctx obj =
      Except.ok ({ obj with clusterName := getClusterName ctx obj },
        st.clusterToCache.map fun p =>
          (p.1, inf p.2 { obj with clusterName := getClusterName ctx obj })) := by
  simp only [MCC.getInformer, if_neg hconc]
  rw [infLoop_ok env _ inf henv]
  simp

/-- Witness for C3's amended statement on the two-cluster facade. -/
theorem getInformer_concrete_fans_out_witness :
    MCC.getInformer env0 st2 ctxN objA = Except.ok (objA, [("a", 1), ("b", 2)]) :=
  getInformer_concrete_fans_out env0 st2 ctxN objA (fun cid _ => cid) (by decide)
    (fun _ _ => rfl)

/-- C2 (the `List` routing bug): cluster `"a"` is registered with cache 1
and the caller passes a list option naming `"a"`, yet `List` fails with
the unknown-cluster error for the empty name instead of delegating to
cache 1 — the source reads `listOpts.ClusterName` from the zero value
before `ApplyOptions` runs, so supplied options are never consulted. -/
theorem list_ignores_supplied_options :
    st2.lookupReg "a" = some 1 ∧
    MCC.list env0 st2 ctxN [ListOpt.inCluster "a"] = Except.error (unknownClusterMsg "") ∧
    MCC.list env0 st2 ctxN [ListOpt.inCluster "a"] ≠ env0.dList 1 [ListOpt.inCluster "a"] :=
  ⟨rfl, rfl, fun h => Except.noConfusion
    ((rfl : Except.error (unknownClusterMsg "") =
        MCC.list env0 st2 ctxN [ListOpt.inCluster "a"]).trans h)⟩

/-- C4 (failing input): the call names the concrete, unregistered
cluster `"a"` in its list options while the ambient context value is
`"*"`; `List` delegates to the wildcard cache and succeeds instead of
returning the unknown-cluster error (same root cause as C2: the
supplied options are ignored and the context value routes the call). -/
theorem list_unknown_cluster_routed_to_global :
    st0.lookupReg "a" = none ∧
    MCC.list env0 st0 ctxStar [ListOpt.inCluster "a"] =
      env0.dList st0.gCache [ListOpt.inCluster "a"] ∧
    MCC.list env0 st0 ctxStar [ListOpt.inCluster "a"] = Except.ok "list-global" :=
  ⟨rfl, rfl, rfl⟩

/-- C8 counterexample: `Get`, `GetInformer` and `IndexField` with a nil
object panic (`none`: the nil interface is dereferenced by
`obj.GetClusterName()` inside `getClusterName`); no error value of any
kind — usage or otherwise — is returned. -/
theorem nil_object_panics_counterexample :
    MCC.getN env0 st0 ctxN "foo" none = none ∧
    MCC.getInformerN env0 st0 ctxN none = none ∧
    MCC.indexFieldN env0 st0 ctxN "f" none = none := ⟨rfl, rfl, rfl⟩

/-- C8 as amended: every cluster-resolving operation invoked with a nil
object panics in `getClusterName` (modelled as `none`) rather than
returning a usage error. -/
theorem nil_object_panics (env : Env) (st : MCC) (ctx : Ctx) (key : Key) (field : String) :
    getClusterNameN ctx none = none ∧
    MCC.getN env st ctx key none = none ∧
    MCC.getInformerN env st ctx none = none ∧
    MCC.indexFieldN env st ctx field none = none := ⟨rfl, rfl, rfl, rfl⟩

/-- C10: every `Get`, `IndexField` or `GetInformer` call resolving to a
concrete cluster writes the resolved name into the supplied object
before delegating: `IndexField` hands back the mutated object,
a failing delegate `Get` still leaves the caller the mutated object,
`GetInformer` returns the mutated object and delegates it to every
registered cache, and when the name came from the ambient context (the
object's own field was empty) the object really is changed. -/
theorem concrete_ops_mutate_object (env : Env) (st : MCC) (ctx : Ctx) (key : Key)
    (obj : Obj) (field : String) (inf : Nat → Obj → InformerTok)
    (hconc : getClusterName ctx obj ≠ "*") :
    (MCC.indexField env st ctx obj field).2.1 =
        { obj with clusterName := getClusterName ctx obj } ∧
    (∀ cid e, st.lookupReg (getClusterName ctx obj) = some cid →
      env.dGet cid key { obj with clusterName := getClusterName ctx obj } =
        Except.error e →
      (MCC.get env st ctx key obj).2 =
        ({ obj with clusterName := getClusterName ctx obj }, Except.error e)) ∧
    ((∀ cid o, env.dGetInformer cid o = Except.ok (inf cid o)) →
      MCC.getInformer env st ctx obj =
        Except.ok ({ obj with clusterName := getClusterName ctx obj },
          st.clusterToCache.map fun p =>
            (p.1, inf p.2 { obj with clusterName := getClusterName ctx obj }))) ∧
    (obj.clusterName = "" →
      ({ obj with clusterName := getClusterName ctx obj } : Obj) ≠ obj) := by
  refine ⟨?_, fun cid e hreg hget => ?_, fun henv => ?_, fun hemp hEq => ?_⟩
  · simp only [MCC.indexField, if_neg hconc]
  · simp only [MCC.get, if_neg hconc, hreg, hget]
  · simp only [MCC.getInformer, if_neg hconc]
    rw [infLoop_ok env _ inf henv]
    simp
  · have h1 : getClusterName ctx obj = obj.clusterName := congrArg Obj.clusterName hEq
    exact getClusterName_ne_empty ctx obj (h1.trans hemp)

/-- Witness for C10: the object carries no cluster name, the ambient
context names `"a"`; after `Get`/`IndexField` the caller-visible object
carries `"a"`, and it differs from the supplied object. -/
theorem concrete_ops_mutate_object_witness :
    (MCC.get env0 st2 ctxA "foo" objE).2 =
      ({ clusterName := "a", payload := "p" }, Except.error "object not found") ∧
    (MCC.indexField env0 st2 ctxA objE "f").2.1 = { clusterName := "a", payload := "p" } ∧
    ({ clusterName := "a", payload := "p" } : Obj) ≠ objE :=
  ⟨(concrete_ops_mutate_object env0 st2 ctxA "foo" objE "f" (fun cid _ => cid)
      (by decide)).2.1 1 "object not found" rfl rfl,
   (concrete_ops_mutate_object env0 st2 ctxA "foo" objE "f" (fun cid _ => cid)
      (by decide)).1,
   (concrete_ops_mutate_object env0 st2 ctxA "foo" objE "f" (fun cid _ => cid)
      (by decide)).2.2.2 rfl⟩

/-- An object whose metadata carries cluster `"c"` (unregistered in the
fixtures). -/
def objC : Obj := { clusterName := "c", payload := "p" }

/-- C7: `IndexField` frame. Resolving to the wildcard installs the index
on the wildcard cache only and leaves every registered per-cluster cache
untouched; resolving to a concrete name installs the index on every
per-cluster cache registered at call time, leaves the wildcard cache
untouched, and a per-cluster cache created afterward (by a lazy `Get`)
starts with no index fields at all. -/
theorem indexField_frame (env : Env) (st : MCC) (ctx : Ctx) (obj : Obj) (field : String)
    (hnd : (st.clusterToCache.map Prod.snd).Nodup)
    (hg : st.gCache ∉ st.clusterToCache.map Prod.snd) :
    (getClusterName ctx obj = "*" →
      env.dIndexErr st.gCache obj field = none →
      (MCC.indexField env st ctx obj field).1.cacheOf st.gCache =
          ((st.cacheOf st.gCache).map fun c =>
            { c with indexFields := c.indexFields ++ [field] }) ∧
      ∀ p ∈ st.clusterToCache,
        (MCC.indexField env st ctx obj field).1.cacheOf p.2 = st.cacheOf p.2) ∧
    (getClusterName ctx obj ≠ "*" →
      (∀ cid o f, env.dIndexErr cid o f = none) →
      (MCC.indexField env st ctx obj field).1.cacheOf st.gCache = st.cacheOf st.gCache ∧
      (∀ p ∈ st.clusterToCache,
        (MCC.indexField env st ctx obj field).1.cacheOf p.2 =
          ((st.cacheOf p.2).map fun c =>
            { c with indexFields := c.indexFields ++ [field] })) ∧
      (∀ (env2 : Env) (ctx2 : Ctx) (key2 : Key) (obj2 : Obj),
        getClusterName ctx2 obj2 ≠ "*" →
        st.lookupReg (getClusterName ctx2 obj2) = none →
        env2.newErr (getClusterName ctx2 obj2) = none →
        st.cacheOf st.nextId = none →
        (MCC.get env2 (MCC.indexField env st ctx obj field).1 ctx2 key2 obj2).1.cacheOf
            st.nextId =
          some { host := st.cfgHost ++ "/clusters/" ++ getClusterName ctx2 obj2
                 ctorClusterName := getClusterName ctx2 obj2
                 indexFields := [] })) := by
  constructor
  · intro hstar hok
    have hres : (MCC.indexField env st ctx obj field).1 = st.addField st.gCache field := by
      simp only [MCC.indexField, if_pos hstar, hok]
    rw [hres]
    constructor
    · rw [cacheOf_addField, if_pos rfl]
    · intro p hp
      have hne : p.2 ≠ st.gCache := by
        intro hEq
        exact hg (hEq ▸ List.mem_map_of_mem Prod.snd hp)
      rw [cacheOf_addField, if_neg hne]
  · intro hconc henv
    have hres : (MCC.indexField env st ctx obj field).1 =
        st.clusterToCache.foldl (fun s p => s.addField p.2 field) st := by
      simp only [MCC.indexField, if_neg hconc, idxLoop_ok env _ field henv]
    refine ⟨?_, fun p hp => ?_, fun env2 ctx2 key2 obj2 hc2 hmiss2 hnew2 hfree => ?_⟩
    · rw [hres]
      exact cacheOf_foldl_addField_notmem field _ st _ hg
    · rw [hres]
      exact cacheOf_foldl_addField_mem field _ st _ hnd (List.mem_map_of_mem Prod.snd hp)
    · have hcomps := foldl_addField_components field st.clusterToCache st
      have hmissA : (st.clusterToCache.foldl (fun s p => s.addField p.2 field) st).lookupReg
          (getClusterName ctx2 obj2) = none := by
        simp only [MCC.lookupReg, hcomps.1]
        exact hmiss2
      have hfreeA : (st.clusterToCache.foldl (fun s p => s.addField p.2 field) st).cacheOf
          st.nextId = none := cacheOf_foldl_addField_none field _ st _ hfree
      rw [hres, get_create env2 _ ctx2 key2 obj2 hc2 hmissA hnew2]
      simp only [MCC.cacheOf] at hfreeA ⊢
      rw [hcomps.2.2.1, hcomps.2.2.2]
      exact cacheOfL_append_fresh st.nextId _ _ hfreeA

/-- Witness for C7 on the two-cluster facade: a wildcard `IndexField`
touches only cache 0; a concrete one touches caches 1 and 2 but not 0;
a cache lazily created for cluster `"c"` afterwards has no fields. -/
theorem indexField_frame_witness :
    (MCC.indexField env0 st2 ctxN objE "f").1.cacheOf 0 =
      some { host := "https://h/clusters/*", ctorClusterName := "", indexFields := ["f"] } ∧
    (MCC.indexField env0 st2 ctxN objE "f").1.cacheOf 1 = some aSt ∧
    (MCC.indexField env0 st2 ctxN objA "f").1.cacheOf 0 = some gSt ∧
    (MCC.indexField env0 st2 ctxN objA "f").1.cacheOf 1 =
      some { host := "https://h/clusters/a", ctorClusterName := "a", indexFields := ["f"] } ∧
    (MCC.get env0 (MCC.indexField env0 st2 ctxN objA "f").1 ctxN "k" objC).1.cacheOf 3 =
      some { host := "https://h/clusters/c", ctorClusterName := "c", indexFields := [] } :=
  ⟨((indexField_frame env0 st2 ctxN objE "f" (by decide) (by decide)).1 rfl rfl).1,
   ((indexField_frame env0 st2 ctxN objE "f" (by decide) (by decide)).1 rfl rfl).2
     ("a", 1) (by decide),
   ((indexField_frame env0 st2 ctxN objA "f" (by decide) (by decide)).2 (by decide)
     (fun _ _ _ => rfl)).1,
   ((indexField_frame env0 st2 ctxN objA "f" (by decide) (by decide)).2 (by decide)
     (fun _ _ _ => rfl)).2.1 ("a", 1) (by decide),
   ((indexField_frame env0 st2 ctxN objA "f" (by decide) (by decide)).2 (by decide)
     (fun _ _ _ => rfl)).2.2 env0 ctxN "k" objC (by decide) rfl rfl rfl⟩

end ClusterScopedCache
